import Mathlib

/-!
Shallow embedding of the `palanaeum/views.py` view layer: data model, the
framework paginator the views rely on, and the view functions themselves.
Parts of the repository that the views call but that are not part of the
source file (the `palanaeum.search` module, the sort form) are modelled from
the specification and marked as such.
-/

namespace Palanaeum

/-- An archived content unit belonging to an Event. -/
structure Entry where
  id : Nat
  event_id : Nat
  visible : Bool
  order : Int
  text : String
  tags : List String
  date : Int
  deriving Repr, DecidableEq

/-- An event, owner of entries. -/
structure Event where
  id : Nat
  name : String
  date : Int
  visible : Bool
  deriving Repr, DecidableEq

/-- An audio or image source; `created_date` is seconds since the Unix epoch,
`none` when the creation date is unknown (SQL NULL / Python `None`). -/
structure Source where
  id : Nat
  visible : Bool
  created_date : Option Int
  deriving Repr, DecidableEq

/-- A tag together with the entries and events using it; the annotated
`entry_count` / `event_count` of the source are the lengths of these lists. -/
structure Tag where
  name : String
  entries : List Nat
  events : List Nat
  deriving Repr, DecidableEq

/-- The read-only corpus the views query. -/
structure Db where
  events : List Event
  entries : List Entry
  audio_sources : List Source
  image_sources : List Source
  tags : List Tag
  deriving Repr, DecidableEq

/-- Whitespace stripped from both ends of a character list. -/
def stripChars (cs : List Char) : List Char :=
  ((cs.dropWhile (·.isWhitespace)).reverse.dropWhile (·.isWhitespace)).reverse

/-- Python `int(s)` on a decimal string: surrounding whitespace stripped, an
optional single sign, then one or more digits (digit-group underscores are
not modelled). -/
def pyIntParse (s : String) : Option Int :=
  match stripChars s.toList with
  | [] => none
  | c :: rest =>
    let digits := if c == '-' || c == '+' then rest else c :: rest
    if !digits.isEmpty && digits.all (·.isDigit) then
      let n : Nat := digits.foldl (fun acc d => acc * 10 + (d.toNat - 48)) 0
      if c == '-' then some (-(n : Int)) else some (n : Int)
    else none

/-- The framework paginator as configured by the views: page size `per_page`,
with up to `orphans` trailing objects absorbed into the last page, and an
empty first page allowed. -/
structure Paginator (α : Type) where
  object_list : List α
  per_page : Nat
  orphans : Nat
  deriving Repr, DecidableEq

/-- One page of results. -/
structure Page (α : Type) where
  number : Nat
  object_list : List α
  deriving Repr, DecidableEq

def Paginator.count {α : Type} (p : Paginator α) : Nat := p.object_list.length

/-- Number of pages: `ceil(max(1, count - orphans) / per_page)`. -/
def Paginator.num_pages {α : Type} (p : Paginator α) : Nat :=
  (max 1 (p.count - p.orphans) + p.per_page - 1) / p.per_page

/-- The objects on page `n` (1-based): the slice `[bottom, top)` of the object
list, where the top of the last page absorbs up to `orphans` extra objects. -/
def Paginator.pageItems {α : Type} (p : Paginator α) (n : Nat) : List α :=
  let bottom := (n - 1) * p.per_page
  let top := if p.count ≤ bottom + p.per_page + p.orphans then p.count else bottom + p.per_page
  (p.object_list.drop bottom).take (top - bottom)

def Paginator.getPage {α : Type} (p : Paginator α) (n : Nat) : Page α :=
  ⟨n, p.pageItems n⟩

inductive PageError where
  | pageNotAnInteger
  | emptyPage
  deriving Repr, DecidableEq

/-- Page-number validation: below 1 or beyond the last page is an error
(page 1 of an empty paginator being allowed). -/
def Paginator.validate {α : Type} (p : Paginator α) (n : Int) : Except PageError Nat :=
  if n < 1 then Except.error PageError.emptyPage
  else if (p.num_pages : Int) < n then
    if n = 1 then Except.ok 1 else Except.error PageError.emptyPage
  else Except.ok n.toNat

/-- The `try paginator.page(page_num) except PageNotAnInteger: page(1)
except EmptyPage: page(num_pages)` pattern shared by the listing views:
a non-integer parameter falls back to the first page, an out-of-range one
to the last page. -/
def Paginator.pageFromParam {α : Type} (p : Paginator α) (s : String) : Page α :=
  match pyIntParse s with
  | none => p.getPage 1
  | some n =>
    match p.validate n with
    | Except.ok m => p.getPage m
    | Except.error _ => p.getPage p.num_pages

/-- Concatenation of `m` consecutive pages starting at page `k`. -/
def Paginator.pagesFrom {α : Type} (p : Paginator α) : Nat → Nat → List α
  | _, 0 => []
  | k, Nat.succ m => p.pageItems k ++ p.pagesFrom (k + 1) m

/-- Concatenation of all pages, in ascending page number. -/
def Paginator.allPages {α : Type} (p : Paginator α) : List α :=
  p.pagesFrom 1 p.num_pages

/-- Last-value lookup in a query-parameter multidict, as `request.GET.get`
returns the last value supplied for a key. -/
def getParam (params : List (String × String)) (k : String) : Option String :=
  ((params.filter (fun p => p.1 == k)).map (·.2)).getLast?

/-- An incoming HTTP request: query parameters plus per-request state that is
not part of the query string (method, session user, the session's page
length). -/
structure Request where
  GET : List (String × String)
  method : String
  session_user : Nat
  page_length : Nat
  deriving Repr, DecidableEq

/-- One hex digit, upper case. -/
def hexChar (n : Nat) : Char :=
  if n < 10 then Char.ofNat (n + 48) else Char.ofNat (n - 10 + 65)

/-- `urllib.parse.quote_plus` on one character (ASCII model: characters are
percent-encoded bytewise from their code point). -/
def quotePlusChar (c : Char) : String :=
  if c.isAlphanum || c = '_' || c = '.' || c = '-' || c = '~' then String.singleton c
  else if c = ' ' then "+"
  else String.mk ['%', hexChar (c.toNat / 16 % 16), hexChar (c.toNat % 16)]

def quotePlus (s : String) : String :=
  String.join (s.toList.map quotePlusChar)

/-- `urllib.parse.urlencode` on a single-pair dict. -/
def urlencodePair (k v : String) : String :=
  quotePlus k ++ "=" ++ quotePlus v

/-- `sub` occurs as a contiguous run inside the character list. -/
def isSubChars (sub : List Char) : List Char → Bool
  | [] => sub.isEmpty
  | c :: cs => sub.isPrefixOf (c :: cs) || isSubChars sub cs

/-- Python `sub in s` on strings: `sub` occurs as a substring of `s`. -/
def strContains (s sub : String) : Bool :=
  isSubChars sub.toList s.toList

/-- The typed filters of the advanced search: free-text query, tag, and a
date range. -/
inductive FilterKind where
  | query
  | tags
  | date_from
  | date_to
  deriving Repr, DecidableEq

/-- The request-parameter key a filter is parsed from. -/
def FilterKind.key : FilterKind → String
  | FilterKind.query => "query"
  | FilterKind.tags => "tags"
  | FilterKind.date_from => "date_from"
  | FilterKind.date_to => "date_to"

/-- A search filter: a kind plus its parameter value. -/
structure Filter where
  kind : FilterKind
  value : String
  deriving Repr, DecidableEq

/-- Python truthiness of a filter object: a filter whose parameter is empty
is inactive. -/
def Filter.active (f : Filter) : Bool := f.value != ""

/-- The filter's predicate on entries. -/
def Filter.matches (f : Filter) (e : Entry) : Bool :=
  match f.kind with
  | FilterKind.query => strContains e.text f.value
  | FilterKind.tags => e.tags.contains f.value
  | FilterKind.date_from => decide ((pyIntParse f.value).getD 0 ≤ e.date)
  | FilterKind.date_to => decide (e.date ≤ (pyIntParse f.value).getD 0)

/-- `Filter.as_url_param`: the URL serialization of the filter. -/
def Filter.as_url_param (f : Filter) : String :=
  urlencodePair f.kind.key f.value

/-- Modelled from the spec: `init_filters` (from `palanaeum.search`, which is
not under src) parses recognized parameter keys into typed filter objects;
unrecognized or empty parameters yield an inactive filter that contributes no
predicate and serializes to nothing. -/
def init_filters (params : List (String × String)) : List Filter :=
  [FilterKind.query, FilterKind.tags, FilterKind.date_from, FilterKind.date_to].map
    (fun k => { kind := k, value := (getParam params k.key).getD "" })

/-- Modelled from the spec: `execute_filters` (from `palanaeum.search`, not
under src) fails closed (empty mapping) when no filter is active; otherwise it
intersects the predicates conjunctively and scores each matching entry by the
number of active filters it matches. -/
def execute_filters (db : Db) (filters : List Filter) : List (Entry × Nat) :=
  if filters.any Filter.active then
    (db.entries.filter (fun e => filters.all (fun f => !f.active || f.matches e))).map
      (fun e => (e, (filters.filter (fun f => f.active && f.matches e)).length))
  else []

/-- Rank ordering on scored entries: descending score, ties broken by
ascending entry id. -/
def rankRel (a b : Entry × Nat) : Prop :=
  b.2 < a.2 ∨ (b.2 = a.2 ∧ a.1.id ≤ b.1.id)

instance (a b : Entry × Nat) : Decidable (rankRel a b) := by
  unfold rankRel
  exact inferInstance

/-- Date ordering on scored entries: descending entry date, ties broken by
ascending entry id. -/
def dateRel (a b : Entry × Nat) : Prop :=
  b.1.date < a.1.date ∨ (b.1.date = a.1.date ∧ a.1.id ≤ b.1.id)

instance (a b : Entry × Nat) : Decidable (dateRel a b) := by
  unfold dateRel
  exact inferInstance

/-- Modelled from the spec: `get_search_results` (from `palanaeum.search`, not
under src) sorts the scored entries by the requested ordering key — `rank`
sorts by descending score with an ascending-id tie-break, any other key by
descending date — and returns the entries. -/
def get_search_results (scored : List (Entry × Nat)) (ordering : String) : List Entry :=
  if ordering = "rank" then (List.insertionSort rankRel scored).map (·.1)
  else (List.insertionSort dateRel scored).map (·.1)

/-- Modelled from the spec: `paginate_search_results` (from
`palanaeum.search`, not under src) paginates the ordered results with the
session's page length, clamping a non-numeric page parameter to the first
page and an out-of-range one to the last page. -/
def paginate_search_results (req : Request) (results : List Entry) :
    List Entry × Paginator Entry × Page Entry :=
  let paginator : Paginator Entry := ⟨results, req.page_length, 0⟩
  let page := paginator.pageFromParam ((getParam req.GET "page").getD "1")
  (page.object_list, paginator, page)

/-- The template context rendered by the advanced search view. -/
structure AdvSearchContext where
  entries : List Entry
  paginator : Option (Paginator Entry)
  page : Option (Page Entry)
  filters : List Filter
  search_done : Bool
  query : String
  search_params : String
  search_time : Nat
  ordering : String
  deriving Repr, DecidableEq

/-- The `adv_search` view. `elapsed` stands for the wall-clock duration
measured around the search; it is an input because real time is outside the
model. -/
def adv_search (db : Db) (req : Request) (elapsed : Nat) : AdvSearchContext :=
  let filters := init_filters req.GET
  let ordering := (getParam req.GET "ordering").getD "rank"
  let paramsList := filters.foldl
    (fun acc f => if f.active then acc ++ [f.as_url_param] else acc)
    [urlencodePair "ordering" ordering]
  let search_params := String.intercalate "&" paramsList
  if filters.any Filter.active then
    let entries_scores := execute_filters db filters
    let res := paginate_search_results req (get_search_results entries_scores ordering)
    { entries := res.1, paginator := some res.2.1, page := some res.2.2, filters := filters,
      search_done := true, query := (getParam req.GET "query").getD "",
      search_params := search_params, search_time := elapsed, ordering := ordering }
  else
    { entries := [], paginator := none, page := none, filters := filters,
      search_done := false, query := (getParam req.GET "query").getD "",
      search_params := search_params, search_time := 0, ordering := ordering }

/-- The request fields the events listing reads: the page parameter, the two
sort-form parameters, and the session's page length. -/
structure EventsRequest where
  page : Option String
  sort_by : Option String
  sort_ord : Option String
  page_length : Nat
  deriving Repr, DecidableEq

/-- Event comparison for the sort form's `order_by` (field and direction,
ties broken by name). -/
def eventSortLe (sort_by sort_ord : String) (a b : Event) : Bool :=
  let le :=
    if sort_by = "date" then
      if a.date = b.date then decide (a.name ≤ b.name) else decide (a.date ≤ b.date)
    else
      decide (a.name ≤ b.name)
  if sort_ord = "-" then !le || (a == b) else le

/-- Modelled from the spec: the sort form (`SortForm`, from `palanaeum.forms`,
not under src) is valid when its parameters are among the declared choices, in
which case `order_by` yields the reordered queryset. -/
def orderedEvents (evs : List Event) (sort_by sort_ord : Option String) : List Event :=
  match sort_by, sort_ord with
  | some b, some o =>
    if (b == "name" || b == "date") && (o == "" || o == "-") then
      List.insertionSort (fun x y => eventSortLe b o x y = true) evs
    else evs
  | _, _ => evs

/-- The template context rendered by the events listing. -/
structure EventsContext where
  paginator : Paginator Event
  page : Page Event
  deriving Repr, DecidableEq

/-- The `events` view: the visible events are paginated with the session's
page length and a tenth of it as orphans. The queryset reordered via the sort
form is computed but never assigned in the source, so the paginator receives
the unsorted queryset. -/
def events (db : Db) (req : EventsRequest) : EventsContext :=
  let evs := db.events.filter (·.visible)
  let _ordered := orderedEvents evs req.sort_by req.sort_ord
  let paginator : Paginator Event := ⟨evs, req.page_length, req.page_length / 10⟩
  let page := paginator.pageFromParam (req.page.getD "1")
  ⟨paginator, page⟩

/-- The response kinds the entity views can produce. -/
inductive Response where
  | notFound
  | permissionDenied
  | redirect (url : String)
  | render (template : String)
  deriving Repr, DecidableEq

/-- Simplified `slugify`: alphanumerics lower-cased, anything else mapped to
a dash. -/
def slugify (s : String) : String :=
  String.map (fun c => if c.isAlphanum then c.toLower else '-') s

/-- The `view_event` view: a missing event is a not-found response; an
invisible event is a permission-denied response; otherwise the event page is
rendered. -/
def view_event (db : Db) (event_id : Nat) : Response :=
  match db.events.find? (fun e => e.id == event_id) with
  | none => Response.notFound
  | some ev =>
    if ev.visible then Response.render "palanaeum/event.html"
    else Response.permissionDenied

/-- The redirect target of `view_entry`: the entry's event page plus an
anchor for the entry. -/
def entryRedirectUrl (db : Db) (en : Entry) : String :=
  let evName :=
    match db.events.find? (fun ev => ev.id == en.event_id) with
    | some ev => ev.name
    | none => ""
  "/events/" ++ toString en.event_id ++ "/" ++ slugify evName ++ "#e" ++ toString en.id

/-- The `view_entry` view: a missing entry is a not-found response; an
existing entry redirects to its event page (no visibility check is made). -/
def view_entry (db : Db) (entry_id : Nat) : Response :=
  match db.entries.find? (fun e => e.id == entry_id) with
  | none => Response.notFound
  | some en => Response.redirect (entryRedirectUrl db en)

/-- The date the home page substitutes for a missing creation date:
1900-01-01, as seconds since the Unix epoch. -/
def date1900 : Int := -2208988800

/-- The sort key of the home page's merged source sort: the creation date,
with a missing date replaced by 1900-01-01. -/
def sourceKey (s : Source) : Int := s.created_date.getD date1900

/-- Descending effective creation date, the order of the merged source list
on the home page. -/
def newerRel (a b : Source) : Prop := sourceKey b ≤ sourceKey a

instance : DecidableRel newerRel := fun a b =>
  inferInstanceAs (Decidable (sourceKey b ≤ sourceKey a))

instance : IsTotal Source newerRel :=
  ⟨fun a b => (le_total (sourceKey a) (sourceKey b)).symm⟩

instance : IsTrans Source newerRel :=
  ⟨fun _ _ _ hab hbc => le_trans hbc hab⟩

/-- The database ordering `order_by('-created_date')` on sources: descending
creation date with NULL dates placed first, as the backing SQL database sorts
NULLs in descending order. -/
def dbCreatedDescLe (a b : Source) : Bool :=
  match a.created_date, b.created_date with
  | none, _ => true
  | some _, none => false
  | some x, some y => decide (y ≤ x)

/-- The five newest sources of a list under `order_by('-created_date')[:5]`. -/
def topFiveByCreated (l : List Source) : List Source :=
  (List.insertionSort (fun a b => dbCreatedDescLe a b = true) l).take 5

/-- The `new_sources` list of the home page: the five newest visible audio
sources and five newest visible image sources merged, sorted by descending
effective creation date, truncated to five. -/
def new_sources (db : Db) : List Source :=
  let merged := topFiveByCreated (db.audio_sources.filter (·.visible)) ++
    topFiveByCreated (db.image_sources.filter (·.visible))
  (List.insertionSort newerRel merged).take 5

/-- Combined usage count of a tag: its entry count plus its event count. -/
def Tag.usage (t : Tag) : Nat := t.entries.length + t.events.length

/-- The tag-query match: the tag's name starts with the query, or contains it
preceded by a space. -/
def tagMatches (q : String) (t : Tag) : Bool :=
  q.toList.isPrefixOf t.name.toList || strContains t.name (" " ++ q)

/-- Descending combined usage count, the order of the tag-query results
(`sorted` with key `-(entry_count + event_count)`). -/
def usageGe (a b : Tag) : Prop := Tag.usage b ≤ Tag.usage a

instance : DecidableRel usageGe := fun a b =>
  inferInstanceAs (Decidable (Tag.usage b ≤ Tag.usage a))

instance : IsTotal Tag usageGe :=
  ⟨fun a b => (le_total (Tag.usage a) (Tag.usage b)).symm⟩

instance : IsTrans Tag usageGe :=
  ⟨fun _ _ _ hab hbc => le_trans hbc hab⟩

/-- The matching tags of the tag-query endpoint, sorted by descending
combined usage count. -/
def sortedTags (db : Db) (q : String) : List Tag :=
  List.insertionSort usageGe (db.tags.filter (tagMatches q))

/-- The JSON object returned by the tag-query endpoint: a `results` list of
`(id, text)` pairs. -/
structure TagsJson where
  results : List (String × String)
  deriving Repr, DecidableEq

/-- One result item: id is the tag name, text is the name followed by the
combined usage count in parentheses. -/
def tagItem (t : Tag) : String × String :=
  (t.name, t.name ++ " (" ++ toString t.usage ++ ")")

/-- The `get_tags` view. -/
def get_tags (db : Db) (q : String) : TagsJson :=
  ⟨(sortedTags db q).map tagItem⟩

/-! Concrete fixtures used to instantiate the theorems below. -/

def exEventHidden : Event := ⟨1, "Secret event", 0, false⟩

def exEntryHidden : Entry := ⟨2, 1, false, 0, "", [], 0⟩

def exDbEntities : Db := ⟨[exEventHidden], [exEntryHidden], [], [], []⟩

def exDbEvents : Db :=
  ⟨[⟨1, "a", 0, true⟩, ⟨2, "b", 0, true⟩, ⟨3, "c", 0, true⟩], [], [], [], []⟩

def exReqPageBad : EventsRequest := ⟨some "xyz", none, none, 2⟩

def exReqPageBig : EventsRequest := ⟨some "99", none, none, 2⟩

def exEntrySearch : Entry := ⟨1, 1, true, 0, "alpha beta", ["t1"], 100⟩

def exDbSearch : Db := ⟨[], [exEntrySearch], [], [], []⟩

def exReqSearch : Request := ⟨[("query", "al")], "GET", 0, 10⟩

def exReqSearchOther : Request := ⟨[("query", "al")], "POST", 42, 3⟩

def exReqEmpty : Request := ⟨[], "GET", 0, 10⟩

def exFilterQuery : Filter := ⟨FilterKind.query, "al"⟩

def exSource : Source := ⟨1, true, some 50⟩

def exDbSources : Db := ⟨[], [], [exSource], [], []⟩

/-! Helper lemmas about the paginator and the advanced search. -/

theorem num_pages_pos {α : Type} (p : Paginator α) (hp : 1 ≤ p.per_page) :
    1 ≤ p.num_pages := by
  unfold Paginator.num_pages
  rw [Nat.le_div_iff_mul_le hp]
  have h := Nat.le_max_left 1 (p.count - p.orphans)
  omega

theorem pageItems_of_lt {α : Type} (p : Paginator α) (k : Nat) (h1 : 1 ≤ k)
    (h2 : k < p.num_pages) (hp : 1 ≤ p.per_page) :
    p.pageItems k = (p.object_list.drop ((k - 1) * p.per_page)).take p.per_page := by
  have hkp : k * p.per_page + p.orphans < p.count := by
    have h3 : k + 1 ≤ (max 1 (p.count - p.orphans) + p.per_page - 1) / p.per_page := h2
    have h4 : (k + 1) * p.per_page ≤ max 1 (p.count - p.orphans) + p.per_page - 1 :=
      (Nat.le_div_iff_mul_le hp).mp h3
    have hmul : (k + 1) * p.per_page = k * p.per_page + p.per_page := by ring
    rw [hmul] at h4
    rcases Nat.le_total (p.count - p.orphans) 1 with hle | hge
    · rw [Nat.max_eq_left hle] at h4
      have hk1 : 1 ≤ k * p.per_page := Nat.one_le_iff_ne_zero.mpr (by positivity)
      omega
    · rw [Nat.max_eq_right hge] at h4
      omega
  have hbp : (k - 1) * p.per_page + p.per_page = k * p.per_page := by
    obtain ⟨k', rfl⟩ : ∃ k', k = k' + 1 := ⟨k - 1, by omega⟩
    simp [Nat.succ_mul]
  unfold Paginator.pageItems
  simp only []
  rw [if_neg (by omega)]
  congr 1
  omega

theorem pageItems_last {α : Type} (p : Paginator α) (hp : 1 ≤ p.per_page) :
    p.pageItems p.num_pages = p.object_list.drop ((p.num_pages - 1) * p.per_page) := by
  have hN : 1 ≤ p.num_pages := num_pages_pos p hp
  have hcond : p.count ≤ p.num_pages * p.per_page + p.orphans := by
    have h1 : (max 1 (p.count - p.orphans) + p.per_page - 1) / p.per_page <
        p.num_pages + 1 := Nat.lt_succ_self _
    have h2 : max 1 (p.count - p.orphans) + p.per_page - 1 <
        (p.num_pages + 1) * p.per_page := (Nat.div_lt_iff_lt_mul hp).mp h1
    have h3 : (p.num_pages + 1) * p.per_page = p.num_pages * p.per_page + p.per_page := by
      ring
    have h5 : p.count - p.orphans ≤ max 1 (p.count - p.orphans) := Nat.le_max_right _ _
    omega
  have hbp : (p.num_pages - 1) * p.per_page + p.per_page = p.num_pages * p.per_page := by
    obtain ⟨k', hk⟩ : ∃ k', p.num_pages = k' + 1 := ⟨p.num_pages - 1, by omega⟩
    rw [hk]
    simp [Nat.succ_mul]
  unfold Paginator.pageItems
  simp only []
  rw [if_pos (by omega)]
  apply List.take_of_length_le
  rw [List.length_drop]
  exact le_refl _

theorem pagesFrom_eq {α : Type} (p : Paginator α) (hp : 1 ≤ p.per_page) :
    ∀ m k, 1 ≤ m → 1 ≤ k → k + m = p.num_pages + 1 →
      p.pagesFrom k m = p.object_list.drop ((k - 1) * p.per_page) := by
  intro m
  induction m with
  | zero => omega
  | succ m ih =>
    intro k _ hk hsum
    cases m with
    | zero =>
      have hkN : k = p.num_pages := by omega
      show p.pageItems k ++ p.pagesFrom (k + 1) 0 = _
      rw [hkN, pageItems_last p hp]
      simp [Paginator.pagesFrom]
    | succ m' =>
      have hlt : k < p.num_pages := by omega
      show p.pageItems k ++ p.pagesFrom (k + 1) (m' + 1) = _
      rw [ih (k + 1) (by omega) (by omega) (by omega)]
      rw [pageItems_of_lt p k hk hlt hp]
      have h1 : (k + 1 - 1) * p.per_page = (k - 1) * p.per_page + p.per_page := by
        obtain ⟨k', rfl⟩ : ∃ k', k = k' + 1 := ⟨k - 1, by omega⟩
        simp [Nat.succ_mul]
      rw [h1, ← List.drop_drop]
      exact List.take_append_drop p.per_page _

theorem mem_pageItems {α : Type} (p : Paginator α) (n : Nat) (a : α)
    (h : a ∈ p.pageItems n) : a ∈ p.object_list := by
  unfold Paginator.pageItems at h
  simp only [] at h
  exact List.mem_of_mem_drop (List.mem_of_mem_take h)

theorem mem_pageFromParam {α : Type} (p : Paginator α) (s : String) (a : α)
    (h : a ∈ (p.pageFromParam s).object_list) : a ∈ p.object_list := by
  unfold Paginator.pageFromParam at h
  split at h
  · exact mem_pageItems p 1 a h
  · split at h
    · exact mem_pageItems p _ a h
    · exact mem_pageItems p _ a h

theorem foldl_params (l : List Filter) (acc : List String) :
    l.foldl (fun a f => if f.active then a ++ [f.as_url_param] else a) acc =
      acc ++ (l.filter Filter.active).map Filter.as_url_param := by
  induction l generalizing acc with
  | nil => simp
  | cons f t ih =>
    cases h : f.active with
    | false => simp [List.foldl_cons, h, ih, List.filter_cons]
    | true => simp [List.foldl_cons, h, ih, List.filter_cons]

theorem adv_search_filters_def (db : Db) (req : Request) (elapsed : Nat) :
    (adv_search db req elapsed).filters = init_filters req.GET := by
  dsimp only [adv_search]
  split <;> rfl

theorem adv_search_params_def (db : Db) (req : Request) (elapsed : Nat) :
    (adv_search db req elapsed).search_params =
      String.intercalate "&"
        (urlencodePair "ordering" ((getParam req.GET "ordering").getD "rank") ::
          ((init_filters req.GET).filter Filter.active).map Filter.as_url_param) := by
  dsimp only [adv_search]
  rw [foldl_params]
  split <;> rfl

/-! The claim theorems. -/

/-- Claim C1: when no filter parsed from the request parameters is active, the
advanced search fails closed: the rendered entry list is empty, no paginator
or page is produced, and the reported search time is 0. -/
theorem adv_search_fails_closed (db : Db) (req : Request) (elapsed : Nat)
    (h : (init_filters req.GET).any Filter.active = false) :
    (adv_search db req elapsed).entries = [] ∧
    (adv_search db req elapsed).paginator = none ∧
    (adv_search db req elapsed).page = none ∧
    (adv_search db req elapsed).search_time = 0 := by
  dsimp only [adv_search]
  rw [h]
  exact ⟨rfl, rfl, rfl, rfl⟩

theorem adv_search_fails_closed_witness :
    (init_filters exReqEmpty.GET).any Filter.active = false ∧
    (adv_search exDbSearch exReqEmpty 7).entries = [] ∧
    (adv_search exDbSearch exReqEmpty 7).paginator = none ∧
    (adv_search exDbSearch exReqEmpty 7).page = none ∧
    (adv_search exDbSearch exReqEmpty 7).search_time = 0 :=
  ⟨by decide, adv_search_fails_closed exDbSearch exReqEmpty 7 (by decide)⟩

/-- Claim C2: in the events listing, a non-numeric `page` parameter yields the
first page and a numeric one beyond the last page yields the last page. -/
theorem events_page_fallback (db : Db) (req : EventsRequest)
    (hp : 1 ≤ req.page_length) :
    (∀ s, req.page = some s → pyIntParse s = none →
      (events db req).page = (events db req).paginator.getPage 1) ∧
    (∀ s n, req.page = some s → pyIntParse s = some n →
      ((events db req).paginator.num_pages : Int) < n →
      (events db req).page =
        (events db req).paginator.getPage (events db req).paginator.num_pages) := by
  have hpage : (events db req).page =
      (events db req).paginator.pageFromParam (req.page.getD "1") := rfl
  constructor
  · intro s hs hparse
    rw [hpage, hs]
    simp only [Option.getD_some, Paginator.pageFromParam, hparse]
  · intro s n hs hparse hgt
    have hN : 1 ≤ (events db req).paginator.num_pages :=
      num_pages_pos (events db req).paginator hp
    rw [hpage, hs]
    simp only [Option.getD_some, Paginator.pageFromParam, hparse]
    unfold Paginator.validate
    rw [if_neg (by omega), if_pos (by omega), if_neg (by omega)]

theorem events_page_fallback_witness :
    (events exDbEvents exReqPageBad).page =
      (events exDbEvents exReqPageBad).paginator.getPage 1 ∧
    (events exDbEvents exReqPageBig).page =
      (events exDbEvents exReqPageBig).paginator.getPage
        (events exDbEvents exReqPageBig).paginator.num_pages :=
  ⟨(events_page_fallback exDbEvents exReqPageBad (by decide)).1 "xyz" rfl (by decide),
   (events_page_fallback exDbEvents exReqPageBig (by decide)).2 "99" 99 rfl
     (by decide) (by decide)⟩

/-- Claim C3: the tag-query endpoint returns a JSON object whose `results`
list is the matching tags formatted as id/text pairs, in order of
non-increasing combined (entry + event) usage count. -/
theorem get_tags_sorted_desc_usage (db : Db) (q : String) :
    List.Sorted usageGe (sortedTags db q) ∧
    (get_tags db q).results = (sortedTags db q).map tagItem := by
  constructor
  · unfold sortedTags
    exact List.sorted_insertionSort usageGe _
  · rfl

/-- Claim C4: for any result sequence and page size, pagination is a
partition — concatenating all pages in ascending page number reproduces the
sequence exactly, without duplicated or skipped items. -/
theorem paginator_partition {α : Type} (l : List α) (per orphans : Nat)
    (hp : 1 ≤ per) : (Paginator.mk l per orphans).allPages = l := by
  have hN : 1 ≤ (Paginator.mk l per orphans).num_pages :=
    num_pages_pos _ hp
  unfold Paginator.allPages
  rw [pagesFrom_eq _ hp _ 1 hN (le_refl 1) (by omega)]
  simp

theorem paginator_partition_witness :
    1 ≤ 2 ∧ (Paginator.mk [0, 1, 2, 3, 4] 2 1).allPages = [0, 1, 2, 3, 4] :=
  ⟨by decide, paginator_partition [0, 1, 2, 3, 4] 2 1 (by decide)⟩

/-- Claim C5 (original, refuted): a request for an event or entry that is
missing or not visible always yields a not-found response. Counterexample: an
existing but invisible event yields a permission-denied response, and an
existing invisible entry yields a redirect. -/
theorem view_event_invisible_not_notFound_cex :
    exDbEntities.events.find? (fun e => e.id == 1) = some exEventHidden ∧
    exEventHidden.visible = false ∧
    view_event exDbEntities 1 = Response.permissionDenied ∧
    view_event exDbEntities 1 ≠ Response.notFound ∧
    exEntryHidden.visible = false ∧
    view_entry exDbEntities 2 ≠ Response.notFound := by
  decide

/-- Claim C5 (amended): a request for a missing event or entry yields a
not-found response; a request for an existing event that is not visible
yields a permission-denied response; a request for an existing entry
redirects to its event page without checking the entry's visibility. -/
theorem entity_views_responses (db : Db) (id : Nat) :
    (db.events.find? (fun e => e.id == id) = none →
      view_event db id = Response.notFound) ∧
    (db.entries.find? (fun e => e.id == id) = none →
      view_entry db id = Response.notFound) ∧
    (∀ ev, db.events.find? (fun e => e.id == id) = some ev → ev.visible = false →
      view_event db id = Response.permissionDenied) ∧
    (∀ en, db.entries.find? (fun e => e.id == id) = some en →
      view_entry db id = Response.redirect (entryRedirectUrl db en)) := by
  refine ⟨?_, ?_, ?_, ?_⟩
  · intro h
    unfold view_event
    rw [h]
  · intro h
    unfold view_entry
    rw [h]
  · intro ev h hv
    unfold view_event
    rw [h]
    simp [hv]
  · intro en h
    unfold view_entry
    rw [h]

theorem entity_views_responses_witness :
    view_event exDbEntities 99 = Response.notFound ∧
    view_entry exDbEntities 99 = Response.notFound ∧
    view_event exDbEntities 1 = Response.permissionDenied ∧
    view_entry exDbEntities 2 = Response.redirect (entryRedirectUrl exDbEntities exEntryHidden) :=
  ⟨(entity_views_responses exDbEntities 99).1 (by decide),
   (entity_views_responses exDbEntities 99).2.1 (by decide),
   (entity_views_responses exDbEntities 1).2.2.1 exEventHidden (by decide) (by decide),
   (entity_views_responses exDbEntities 2).2.2.2 exEntryHidden (by decide)⟩

/-- Claim C6: filters combine conjunctively — every entry rendered by the
advanced search satisfies the predicate of every active filter. -/
theorem adv_search_conjunctive (db : Db) (req : Request) (elapsed : Nat)
    (f : Filter) (e : Entry)
    (hf : f ∈ (adv_search db req elapsed).filters) (ha : f.active = true)
    (he : e ∈ (adv_search db req elapsed).entries) : f.matches e = true := by
  rw [adv_search_filters_def] at hf
  cases hc : (init_filters req.GET).any Filter.active with
  | true =>
    have hent : (adv_search db req elapsed).entries =
        (paginate_search_results req
          (get_search_results (execute_filters db (init_filters req.GET))
            ((getParam req.GET "ordering").getD "rank"))).1 := by
      dsimp only [adv_search]
      rw [hc]
      rfl
    rw [hent] at he
    dsimp only [paginate_search_results] at he
    have he2 : e ∈ get_search_results (execute_filters db (init_filters req.GET))
        ((getParam req.GET "ordering").getD "rank") :=
      mem_pageFromParam _ _ _ he
    have he3 : ∃ sc, (e, sc) ∈ execute_filters db (init_filters req.GET) := by
      unfold get_search_results at he2
      split at he2 <;>
      · obtain ⟨pair, hpair, hfst⟩ := List.mem_map.1 he2
        have hmem := (List.mem_insertionSort _).1 hpair
        exact ⟨pair.2, by rw [← hfst]; exact hmem⟩
    obtain ⟨sc, hsc⟩ := he3
    unfold execute_filters at hsc
    rw [if_pos hc] at hsc
    obtain ⟨e', he', heq⟩ := List.mem_map.1 hsc
    have hee : e' = e := congrArg Prod.fst heq
    rw [hee] at he'
    have hall := (List.mem_filter.1 he').2
    have hone := (List.all_eq_true.1 hall) f hf
    rw [ha] at hone
    simpa using hone
  | false =>
    have hent : (adv_search db req elapsed).entries = [] := by
      dsimp only [adv_search]
      rw [hc]
      rfl
    rw [hent] at he
    exact absurd he (List.not_mem_nil e)

theorem adv_search_conjunctive_witness :
    exFilterQuery.active = true ∧ exFilterQuery.matches exEntrySearch = true :=
  ⟨by decide,
   adv_search_conjunctive exDbSearch exReqSearch 0 exFilterQuery exEntrySearch
     (by decide) (by decide) (by decide)⟩

/-- Claim C7: the echoed search-parameter string is the ordering parameter
followed by the URL serializations of exactly the active filters; inactive
filters contribute nothing. -/
theorem search_params_active_only (db : Db) (req : Request) (elapsed : Nat) :
    (adv_search db req elapsed).search_params =
      String.intercalate "&"
        (urlencodePair "ordering" ((getParam req.GET "ordering").getD "rank") ::
          ((init_filters req.GET).filter Filter.active).map Filter.as_url_param) :=
  adv_search_params_def db req elapsed

/-- Claim C8: the filter set and the echoed search-parameter string are
functions of the request's query parameters alone — two requests with the
same query parameters produce the same filters and the same parameter
string, whatever their other state. -/
theorem adv_search_deterministic_in_get (db1 db2 : Db) (r1 r2 : Request)
    (e1 e2 : Nat) (h : r1.GET = r2.GET) :
    (adv_search db1 r1 e1).filters = (adv_search db2 r2 e2).filters ∧
    (adv_search db1 r1 e1).search_params = (adv_search db2 r2 e2).search_params := by
  constructor
  · rw [adv_search_filters_def, adv_search_filters_def, h]
  · rw [adv_search_params_def, adv_search_params_def, h]

theorem adv_search_deterministic_in_get_witness :
    (adv_search exDbSearch exReqSearch 1).filters =
      (adv_search exDbEntities exReqSearchOther 9).filters ∧
    (adv_search exDbSearch exReqSearch 1).search_params =
      (adv_search exDbEntities exReqSearchOther 9).search_params :=
  adv_search_deterministic_in_get exDbSearch exDbEntities exReqSearch
    exReqSearchOther 1 9 rfl

/-- Claim C9: the events listing ignores the sort form — requests that differ
only in the `sort_by` and `sort_ord` parameters render the same paginator and
page, because the reordered queryset is never assigned. -/
theorem events_ignores_sort (db : Db) (r1 r2 : EventsRequest)
    (hpage : r1.page = r2.page) (hlen : r1.page_length = r2.page_length) :
    events db r1 = events db r2 := by
  simp only [events]
  rw [hpage, hlen]

theorem events_ignores_sort_witness :
    events exDbEvents ⟨some "2", some "name", some "", 2⟩ =
      events exDbEvents ⟨some "2", some "date", some "-", 2⟩ :=
  events_ignores_sort exDbEvents ⟨some "2", some "name", some "", 2⟩
    ⟨some "2", some "date", some "-", 2⟩ rfl rfl

/-- Claim C10: the home page's new-source list has at most five items, each
drawn from the five newest visible audio sources or the five newest visible
image sources, and is sorted by descending creation date where a missing
date counts as 1900-01-01 (the minimal key, so such sources sort last). -/
theorem new_sources_spec (db : Db) :
    (new_sources db).length ≤ 5 ∧
    List.Sorted newerRel (new_sources db) ∧
    (∀ s, s ∈ new_sources db →
      s ∈ topFiveByCreated (db.audio_sources.filter (·.visible)) ++
        topFiveByCreated (db.image_sources.filter (·.visible))) := by
  refine ⟨?_, ?_, ?_⟩
  · dsimp only [new_sources]
    rw [List.length_take]
    exact min_le_left _ _
  · dsimp only [new_sources]
    exact List.Pairwise.sublist (List.take_sublist 5 _)
      (List.sorted_insertionSort newerRel _)
  · intro s hs
    dsimp only [new_sources] at hs
    exact (List.mem_insertionSort newerRel).1 (List.mem_of_mem_take hs)

theorem new_sources_spec_witness :
    exSource ∈ new_sources exDbSources ∧
    exSource ∈ topFiveByCreated (exDbSources.audio_sources.filter (·.visible)) ++
      topFiveByCreated (exDbSources.image_sources.filter (·.visible)) :=
  ⟨by decide, (new_sources_spec exDbSources).2.2 exSource (by decide)⟩

end Palanaeum
